import Mathlib

/-!
# Verification of the PlatformTools facade (src/platform/PlatformTools.ts)

Shallow embedding of the platform-abstraction facade: the dynamic module
resolver (PlatformTools.load), the path normalization helper, the thin
filesystem and environment wrappers, and the static platform-type field.

Host-level primitives (the node require machinery, path.resolve,
path.normalize, fs and dotenv calls) are modelled as components of an
explicit environment record; module loads that can throw are modelled as
functions into Except.
-/

set_option autoImplicit false

/-- An implementation handle returned by a successful host-level load.
Opaque to the facade; modelled as a natural number so that concrete
environments can be evaluated. -/
abbrev Handle := Nat

/-- An error thrown by a host-level primitive (require, fs, dotenv).
Opaque to the facade; modelled as a natural number. -/
abbrev HostErr := Nat

/-- The errors observable from PlatformTools.load: the TypeError built at
line 142 carrying the requested name, or a host-level error escaping the
fallback require at lines 133-135. -/
inductive LoadError where
  | invalidPackage (name : String)
  | hostError (e : HostErr)
deriving DecidableEq

/-- The node host environment seen by PlatformTools.load: the require
primitive (which either returns a handle or throws), the current working
directory of the process, and the path.resolve primitive. -/
structure NodeEnv where
  require : String → Except HostErr Handle
  cwd : String
  pathResolve : String → String

namespace PlatformTools

/-- The whitelist switch of PlatformTools.load, lines 38-131: maps each
recognized capability name to the argument of the explicit require call of
its case, and every other name to none (no case matches). -/
def whitelistTarget (name : String) : Option String :=
  match name with
  | "spanner" => some "@google-cloud/spanner"
  | "mongodb" => some "mongodb"
  | "@sap/hana-client" => some "@sap/hana-client"
  | "hdb-pool" => some "hdb-pool"
  | "mysql" => some "mysql"
  | "mysql2" => some "mysql2"
  | "mariadb" => some "mariadb/callback"
  | "oracledb" => some "oracledb"
  | "pg" => some "pg"
  | "pg-native" => some "pg-native"
  | "pg-query-stream" => some "pg-query-stream"
  | "typeorm-aurora-data-api-driver" => some "typeorm-aurora-data-api-driver"
  | "redis" => some "redis"
  | "ioredis" => some "ioredis"
  | "better-sqlite3" => some "better-sqlite3"
  | "sqlite3" => some "sqlite3"
  | "sql.js" => some "sql.js"
  | "mssql" => some "mssql"
  | "react-native-sqlite-storage" => some "react-native-sqlite-storage"
  | _ => none

/-- The argument of the fallback require at lines 133-135:
path.resolve(process.cwd() + "/node_modules/" + name). -/
def fallbackPath (env : NodeEnv) (name : String) : String :=
  env.pathResolve (env.cwd ++ "/node_modules/" ++ name)

/-- PlatformTools.load, lines 31-143. The try block contains only the
switch; a case whose require throws lands in the catch, which performs the
fallback require (whose own error, if any, escapes to the caller). A name
matching no case leaves the try normally and reaches the TypeError at
line 142 without any require having been attempted. -/
def load (env : NodeEnv) (name : String) : Except LoadError Handle :=
  match whitelistTarget name with
  | some target =>
    match env.require target with
    | .ok h => .ok h
    | .error _ =>
      match env.require (fallbackPath env name) with
      | .ok h => .ok h
      | .error e => .error (.hostError e)
  | none => .error (.invalidPackage name)

/-- PlatformTools.load instrumented with the list of arguments passed to
the host require primitive, in order. Mirrors load exactly. -/
def loadTrace (env : NodeEnv) (name : String) :
    Except LoadError Handle × List String :=
  match whitelistTarget name with
  | some target =>
    match env.require target with
    | .ok h => (.ok h, [target])
    | .error _ =>
      match env.require (fallbackPath env name) with
      | .ok h => (.ok h, [target, fallbackPath env name])
      | .error e => (.error (.hostError e), [target, fallbackPath env name])
  | none => (.error (.invalidPackage name), [])

end PlatformTools

/-- The filesystem and environment host primitives used by the thin
wrapper operations of the facade (fs.readFileSync, fs.appendFileSync,
dotenv.config, process.env). Fallible primitives are modelled as functions
into Except; file contents are byte lists. -/
structure FsHost where
  readFileSyncHost : String → Except HostErr (List Nat)
  appendFileSyncHost : String → List Nat → Except HostErr Unit
  dotenvConfigHost : String → Except HostErr Unit
  envVar : String → Option String

namespace PlatformTools

/-- PlatformTools.readFileSync, lines 176-178: returns
fs.readFileSync(filename) with no surrounding try or catch. -/
def readFileSync (host : FsHost) (filename : String) :
    Except HostErr (List Nat) :=
  host.readFileSyncHost filename

/-- PlatformTools.appendFileSync, lines 180-182: calls
fs.appendFileSync(filename, data) with no surrounding try or catch. -/
def appendFileSync (host : FsHost) (filename : String) (data : List Nat) :
    Except HostErr Unit :=
  host.appendFileSyncHost filename data

/-- PlatformTools.dotenv, lines 198-200: calls dotenv.config with the
given path and no surrounding try or catch. -/
def dotenv (host : FsHost) (pathStr : String) : Except HostErr Unit :=
  host.dotenvConfigHost pathStr

/-- PlatformTools.getEnvVariable, lines 205-207: returns
process.env[name]. -/
def getEnvVariable (host : FsHost) (name : String) : Option String :=
  host.envVar name

/-- The effect of the regex replace at line 151,
normalizedPath.replace(backslash-global, "/"): every backslash character
becomes a forward slash. -/
def replaceBackslashes (s : String) : String :=
  String.mk (s.data.map fun c => if c = '\\' then '/' else c)

/-- PlatformTools.pathNormalize, lines 148-153: applies the host
path.normalize, then on win32 (and only there) replaces every backslash
with a forward slash. The host normalize primitive and process.platform
are passed explicitly. -/
def pathNormalize (platform : String) (hostNormalize : String → String)
    (pathStr : String) : String :=
  let normalizedPath := hostNormalize pathStr
  if platform = "win32" then replaceBackslashes normalizedPath
  else normalizedPath

end PlatformTools

/-- The two values of the PlatformTools.type field (line 18). -/
inductive PlatformType where
  | browser
  | node
deriving DecidableEq

/-- The external world the facade operations can affect: the filesystem
and the process environment. -/
structure World where
  files : String → Option (List Nat)
  env : String → Option String

/-- The state visible to the facade across calls: the static field
PlatformTools.type together with the external world. -/
structure FacadeState where
  type : PlatformType
  world : World

/-- How the host primitives with side effects transform the world; kept
abstract since they are external collaborators. -/
structure HostBehavior where
  appendEffect : World → String → List Nat → World
  writeEffect : World → String → List Nat → World
  dotenvEffect : World → String → World

/-- One call to a static operation of the PlatformTools class, with its
arguments (data arguments abstracted to strings and byte lists). -/
inductive FacadeOp where
  | load (name : String)
  | getGlobalVariable
  | pathNormalize (s : String)
  | pathExtname (s : String)
  | pathResolve (s : String)
  | fileExist (s : String)
  | readFileSync (s : String)
  | appendFileSync (s : String) (d : List Nat)
  | writeFile (s : String) (d : List Nat)
  | dotenv (s : String)
  | getEnvVariable (s : String)
  | highlightSql (s : String)
  | highlightJson (s : String)
  | logInfo (s : String)
  | logError (s : String)
  | logWarn (s : String)
  | log (s : String)
  | info (s : String)
  | error (s : String)
  | warn (s : String)
  | logCmdErr (s : String)

namespace PlatformTools

/-- The facade state at process start: the initializer at line 18 sets
type to "node"; the world is whatever the process starts with. -/
def initialState (w : World) : FacadeState :=
  { type := PlatformType.node, world := w }

/-- State transition of one facade call. appendFileSync, writeFile and
dotenv change the external world through their host primitives; no
operation in the source assigns to the type field, so every branch leaves
it as it was. -/
def step (hb : HostBehavior) (s : FacadeState) : FacadeOp → FacadeState
  | .appendFileSync fn d => { s with world := hb.appendEffect s.world fn d }
  | .writeFile fn d => { s with world := hb.writeEffect s.world fn d }
  | .dotenv p => { s with world := hb.dotenvEffect s.world p }
  | _ => s

/-- Runs a sequence of facade calls from a state. -/
def run (hb : HostBehavior) (s : FacadeState) (ops : List FacadeOp) :
    FacadeState :=
  ops.foldl (step hb) s

/-- PlatformTools.load as a call against the facade state: the body of
load (lines 31-143) reads no field of the class and assigns none, so the
call returns the resolution computed from the node environment alone and
the state it was given. -/
def loadCall (env : NodeEnv) (s : FacadeState) (name : String) :
    Except LoadError Handle × FacadeState :=
  (load env name, s)

end PlatformTools

/-- step never changes the type field. -/
theorem step_type (hb : HostBehavior) (s : FacadeState) (op : FacadeOp) :
    (PlatformTools.step hb s op).type = s.type := by
  cases op <;> rfl

/-- run never changes the type field. -/
theorem run_type (hb : HostBehavior) (s : FacadeState)
    (ops : List FacadeOp) :
    (PlatformTools.run hb s ops).type = s.type := by
  induction ops generalizing s with
  | nil => rfl
  | cons op rest ih =>
    have h1 : PlatformTools.run hb s (op :: rest)
        = PlatformTools.run hb (PlatformTools.step hb s op) rest := rfl
    rw [h1, ih, step_type]

/-- The instrumented resolver computes the same result as load. -/
theorem loadTrace_fst (env : NodeEnv) (name : String) :
    (PlatformTools.loadTrace env name).1 = PlatformTools.load env name := by
  rcases hw : PlatformTools.whitelistTarget name with _ | t
  · simp [PlatformTools.loadTrace, PlatformTools.load, hw]
  · rcases hr : env.require t with e | h
    · rcases hf : env.require (PlatformTools.fallbackPath env name) with e2 | h2 <;>
        simp [PlatformTools.loadTrace, PlatformTools.load, hw, hr, hf]
    · simp [PlatformTools.loadTrace, PlatformTools.load, hw, hr]

/-- A node environment whose require succeeds on every argument. -/
def allOkEnv : NodeEnv :=
  { require := fun _ => .ok 0, cwd := "/w", pathResolve := id }

/-- A node environment whose require throws on every argument. -/
def allFailEnv : NodeEnv :=
  { require := fun _ => .error 7, cwd := "/w", pathResolve := id }

/-- A node environment where the direct require of mysql2 throws but the
copy under the dependency root of the working directory loads. -/
def envA : NodeEnv :=
  { require := fun s => if s = "mysql2" then .error 1 else .ok 5,
    cwd := "/app", pathResolve := id }

/-- A node environment where every require succeeds with handle 9. -/
def envOk : NodeEnv :=
  { require := fun _ => .ok 9, cwd := "/w", pathResolve := id }

/-- A node environment where the mariadb package root and its callback
submodule load to distinct handles. -/
def envM : NodeEnv :=
  { require := fun s =>
      if s = "mariadb/callback" then .ok 2
      else if s = "mariadb" then .ok 1
      else .error 0,
    cwd := "/w", pathResolve := id }

/-- A filesystem host whose fallible primitives all throw. -/
def hostB : FsHost :=
  { readFileSyncHost := fun _ => .error 3,
    appendFileSyncHost := fun _ _ => .error 4,
    dotenvConfigHost := fun _ => .error 5,
    envVar := fun _ => some "v" }

/-- Claim C1, counterexample: the name left-pad is not a case of the
whitelist switch and a require of its fallback location would succeed,
yet load raises the invalid-package error instead of attempting the
fallback and returning its handle. -/
theorem C1_counterexample :
    PlatformTools.whitelistTarget "left-pad" = none
    ∧ allOkEnv.require (PlatformTools.fallbackPath allOkEnv "left-pad")
        = Except.ok 0
    ∧ PlatformTools.load allOkEnv "left-pad"
        = Except.error (LoadError.invalidPackage "left-pad") :=
  ⟨rfl, rfl, rfl⟩

/-- Claim C1, amended: for every capability name that is not a case of
the whitelist switch, load raises the invalid-package error carrying the
requested name immediately, performing no host-level load at all; the
generic fallback is never attempted for such names. -/
theorem C1_amended (env : NodeEnv) (name : String)
    (h : PlatformTools.whitelistTarget name = none) :
    PlatformTools.load env name
        = Except.error (LoadError.invalidPackage name)
    ∧ (PlatformTools.loadTrace env name).2 = [] :=
  ⟨by simp [PlatformTools.load, h], by simp [PlatformTools.loadTrace, h]⟩

/-- Witness for C1_amended at the concrete name left-pad. -/
theorem C1_amended_witness :
    PlatformTools.load allOkEnv "left-pad"
        = Except.error (LoadError.invalidPackage "left-pad")
    ∧ (PlatformTools.loadTrace allOkEnv "left-pad").2 = [] :=
  C1_amended allOkEnv "left-pad" rfl

/-- Claim C2, counterexample: for the whitelisted name pg, when both the
direct require and the fallback require throw, load propagates the
fallback host error, which is not the invalid-package error carrying the
requested name. -/
theorem C2_counterexample :
    PlatformTools.whitelistTarget "pg" = some "pg"
    ∧ allFailEnv.require "pg" = Except.error 7
    ∧ allFailEnv.require (PlatformTools.fallbackPath allFailEnv "pg")
        = Except.error 7
    ∧ PlatformTools.load allFailEnv "pg"
        = Except.error (LoadError.hostError 7)
    ∧ LoadError.hostError 7 ≠ LoadError.invalidPackage "pg" :=
  ⟨rfl, rfl, rfl, rfl, by decide⟩

/-- Claim C2, amended: load never returns a placeholder (every call is a
handle or an error); the invalid-package error carrying the requested
name is raised exactly for names outside the whitelist, with no load
attempted; for whitelisted names load never raises the invalid-package
error, and when both the direct and the fallback loads fail it propagates
the fallback host error to the caller. -/
theorem C2_amended (env : NodeEnv) (name : String) :
    (PlatformTools.whitelistTarget name = none →
      PlatformTools.load env name
          = Except.error (LoadError.invalidPackage name)
      ∧ (PlatformTools.loadTrace env name).2 = [])
    ∧ ∀ t, PlatformTools.whitelistTarget name = some t →
        (∀ m, PlatformTools.load env name
            ≠ Except.error (LoadError.invalidPackage m))
        ∧ ∀ e e2, env.require t = Except.error e →
            env.require (PlatformTools.fallbackPath env name)
              = Except.error e2 →
            PlatformTools.load env name
              = Except.error (LoadError.hostError e2) := by
  constructor
  · intro h
    exact ⟨by simp [PlatformTools.load, h],
      by simp [PlatformTools.loadTrace, h]⟩
  · intro t ht
    constructor
    · intro m
      rcases hr : env.require t with e | h
      · rcases hf : env.require (PlatformTools.fallbackPath env name)
          with e2 | h2 <;>
          simp [PlatformTools.load, ht, hr, hf]
      · simp [PlatformTools.load, ht, hr]
    · intro e e2 hr hf
      simp [PlatformTools.load, ht, hr, hf]

/-- Witness for C2_amended at the concrete name pg in an environment
where every require throws. -/
theorem C2_amended_witness :
    PlatformTools.load allFailEnv "pg"
        ≠ Except.error (LoadError.invalidPackage "pg")
    ∧ PlatformTools.load allFailEnv "pg"
        = Except.error (LoadError.hostError 7) :=
  ⟨((C2_amended allFailEnv "pg").2 "pg" rfl).1 "pg",
   ((C2_amended allFailEnv "pg").2 "pg" rfl).2 7 7 rfl rfl⟩

/-- Claim C3: when the direct require of a whitelisted name throws, load
does not propagate that error; it attempts the fallback require and
returns its handle when it succeeds. -/
theorem C3_fallthrough (env : NodeEnv) (name t : String) (e : HostErr)
    (h : Handle)
    (ht : PlatformTools.whitelistTarget name = some t)
    (hr : env.require t = Except.error e)
    (hf : env.require (PlatformTools.fallbackPath env name)
        = Except.ok h) :
    PlatformTools.load env name = Except.ok h := by
  simp [PlatformTools.load, ht, hr, hf]

/-- Witness for C3_fallthrough: mysql2 fails directly but loads from the
dependency root of the working directory. -/
theorem C3_fallthrough_witness :
    PlatformTools.load envA "mysql2" = Except.ok 5 :=
  C3_fallthrough envA "mysql2" "mysql2" 1 5 rfl rfl rfl

/-- Claim C4: a whitelisted name whose direct require succeeds makes load
return exactly that handle, with no error. -/
theorem C4_direct_success (env : NodeEnv) (name t : String) (h : Handle)
    (ht : PlatformTools.whitelistTarget name = some t)
    (hr : env.require t = Except.ok h) :
    PlatformTools.load env name = Except.ok h := by
  simp [PlatformTools.load, ht, hr]

/-- Witness for C4_direct_success at the concrete name pg. -/
theorem C4_direct_success_witness :
    PlatformTools.load envOk "pg" = Except.ok 9 :=
  C4_direct_success envOk "pg" "pg" 9 rfl rfl

/-- Claim C5: load is stateless and cache-free: a call leaves the facade
state unchanged, a second call in sequence returns the same result and
state as the first, the result is the resolution computed afresh from the
environment, and it does not depend on the facade state at all. -/
theorem C5_stateless (env : NodeEnv) (s : FacadeState) (name : String) :
    (PlatformTools.loadCall env s name).2 = s
    ∧ PlatformTools.loadCall env (PlatformTools.loadCall env s name).2 name
        = PlatformTools.loadCall env s name
    ∧ (PlatformTools.loadCall env s name).1 = PlatformTools.load env name
    ∧ ∀ s2 : FacadeState,
        (PlatformTools.loadCall env s2 name).1
          = (PlatformTools.loadCall env s name).1 :=
  ⟨rfl, rfl, rfl, fun _ => rfl⟩

/-- Claim C6: whenever the fallback is attempted (a whitelisted name
whose direct require throws), the host require is called exactly twice,
and the second argument is exactly the path.resolve of the current
working directory concatenated with /node_modules/ and the name. -/
theorem C6_fallback_location (env : NodeEnv) (name t : String)
    (e : HostErr)
    (ht : PlatformTools.whitelistTarget name = some t)
    (hr : env.require t = Except.error e) :
    (PlatformTools.loadTrace env name).2
        = [t, PlatformTools.fallbackPath env name]
    ∧ PlatformTools.fallbackPath env name
        = env.pathResolve (env.cwd ++ "/node_modules/" ++ name) := by
  refine ⟨?_, rfl⟩
  rcases hf : env.require (PlatformTools.fallbackPath env name)
    with e2 | h2 <;>
    simp [PlatformTools.loadTrace, ht, hr, hf]

/-- Witness for C6_fallback_location at the concrete name mysql2. -/
theorem C6_fallback_location_witness :
    (PlatformTools.loadTrace envA "mysql2").2
        = ["mysql2", PlatformTools.fallbackPath envA "mysql2"]
    ∧ PlatformTools.fallbackPath envA "mysql2"
        = envA.pathResolve (envA.cwd ++ "/node_modules/" ++ "mysql2") :=
  C6_fallback_location envA "mysql2" "mysql2" 1 rfl rfl

/-- Claim C7: the thin wrapper operations (file read, file append, dotenv
load, environment variable get) are exact pass-throughs to the host
primitives: results are returned unmodified and a host error is raised to
the caller as that same error, with no wrapping or suppression. -/
theorem C7_passthrough (host : FsHost) (fn fn2 p n : String)
    (d : List Nat) :
    PlatformTools.readFileSync host fn = host.readFileSyncHost fn
    ∧ PlatformTools.appendFileSync host fn2 d
        = host.appendFileSyncHost fn2 d
    ∧ PlatformTools.dotenv host p = host.dotenvConfigHost p
    ∧ PlatformTools.getEnvVariable host n = host.envVar n
    ∧ (∀ e, host.readFileSyncHost fn = Except.error e →
        PlatformTools.readFileSync host fn = Except.error e)
    ∧ (∀ e, host.appendFileSyncHost fn2 d = Except.error e →
        PlatformTools.appendFileSync host fn2 d = Except.error e)
    ∧ (∀ e, host.dotenvConfigHost p = Except.error e →
        PlatformTools.dotenv host p = Except.error e) :=
  ⟨rfl, rfl, rfl, rfl, fun _ he => he, fun _ he => he, fun _ he => he⟩

/-- Witness for C7_passthrough on a host whose primitives throw distinct
errors: each wrapper surfaces exactly the host error. -/
theorem C7_passthrough_witness :
    PlatformTools.readFileSync hostB "a" = Except.error 3
    ∧ PlatformTools.appendFileSync hostB "b" [1] = Except.error 4
    ∧ PlatformTools.dotenv hostB "c" = Except.error 5 :=
  ⟨(C7_passthrough hostB "a" "b" "c" "x" [1]).2.2.2.2.1 3 rfl,
   (C7_passthrough hostB "a" "b" "c" "x" [1]).2.2.2.2.2.1 4 rfl,
   (C7_passthrough hostB "a" "b" "c" "x" [1]).2.2.2.2.2.2 5 rfl⟩

/-- Claim C8: pathNormalize is the host path.normalize with every
backslash replaced by a forward slash exactly when the platform is win32
(so the win32 result contains no backslash), and the host path.normalize
unchanged on every other platform. -/
theorem C8_pathNormalize (plat : String) (hn : String → String)
    (s : String) :
    (plat = "win32" →
      PlatformTools.pathNormalize plat hn s
          = PlatformTools.replaceBackslashes (hn s)
      ∧ '\\' ∉ (PlatformTools.pathNormalize plat hn s).data)
    ∧ (plat ≠ "win32" →
      PlatformTools.pathNormalize plat hn s = hn s) := by
  constructor
  · intro hp
    subst hp
    refine ⟨by simp [PlatformTools.pathNormalize], ?_⟩
    intro hmem
    have hdata : (PlatformTools.pathNormalize "win32" hn s).data
        = (hn s).data.map fun c => if c = '\\' then '/' else c := rfl
    rw [hdata] at hmem
    rcases List.mem_map.mp hmem with ⟨c, _, hc⟩
    by_cases h : c = '\\'
    · subst h
      rw [if_pos rfl] at hc
      exact absurd hc (by decide)
    · rw [if_neg h] at hc
      exact h hc
  · intro hne
    simp [PlatformTools.pathNormalize, hne]

/-- Witness for C8_pathNormalize on both sides of the platform test. -/
theorem C8_pathNormalize_witness :
    PlatformTools.pathNormalize "win32" id "a\\b" = "a/b"
    ∧ PlatformTools.pathNormalize "linux" id "a\\b" = "a\\b" :=
  ⟨by rw [((C8_pathNormalize "win32" id "a\\b").1 rfl).1]; rfl,
   (C8_pathNormalize "linux" id "a\\b").2 (by decide)⟩

/-- Claim C9: the whitelist case for mariadb requires the
mariadb/callback submodule, a different module identifier than the
mariadb package root: whenever that submodule loads with handle h, load
of mariadb returns h, and there is an environment in which this differs
from the handle of the package root. -/
theorem C9_mariadb :
    PlatformTools.whitelistTarget "mariadb" = some "mariadb/callback"
    ∧ "mariadb/callback" ≠ "mariadb"
    ∧ (∀ (env : NodeEnv) (h : Handle),
        env.require "mariadb/callback" = Except.ok h →
        PlatformTools.load env "mariadb" = Except.ok h)
    ∧ ∃ (env : NodeEnv) (h1 h2 : Handle),
        env.require "mariadb" = Except.ok h1
        ∧ PlatformTools.load env "mariadb" = Except.ok h2
        ∧ h1 ≠ h2 := by
  refine ⟨rfl, by decide, ?_, ⟨envM, 1, 2, rfl, rfl, by decide⟩⟩
  intro env h hr
  have hw : PlatformTools.whitelistTarget "mariadb"
      = some "mariadb/callback" := rfl
  simp [PlatformTools.load, hw, hr]

/-- Witness for C9_mariadb in an environment where the callback submodule
and the package root load to distinct handles. -/
theorem C9_mariadb_witness :
    PlatformTools.load envM "mariadb" = Except.ok 2 :=
  C9_mariadb.2.2.1 envM 2 rfl

/-- Claim C10: the type field starts as node, no facade operation assigns
to it, and after any sequence of facade calls under any host behavior it
is still node. -/
theorem C10_type_invariant :
    (∀ w, (PlatformTools.initialState w).type = PlatformType.node)
    ∧ (∀ hb s ops, (PlatformTools.run hb s ops).type = s.type)
    ∧ (∀ hb w ops,
        (PlatformTools.run hb (PlatformTools.initialState w) ops).type
          = PlatformType.node) :=
  ⟨fun _ => rfl, run_type,
   fun hb w ops => (run_type hb (PlatformTools.initialState w) ops).trans rfl⟩
